import Mathlib

/-!
Verification of the Ready Trader Go autotrader (src/autotrader.cc, src/autotrader.h).

Shallow embedding conventions:
* `unsigned long` is modelled as `Nat` with arithmetic reduced modulo `U64 = 2^64`
  wherever the source can wrap (sums, subtractions, conversions).
* `signed long` is modelled as `Int`; the conversion `static_cast<long>(unsigned long)`
  is `toLong` (two's-complement wraparound).
* `double` values (the weighted average spread) are modelled as exact rationals `ℚ`;
  the conversion `double -> unsigned long` truncates towards zero, modelled by `qToULong`
  (the source has undefined behaviour for negative or huge doubles; the model clamps
  negatives to 0, and every concrete evaluation below stays in the exact range).
* `std::vector<unsigned long>` buffers are `List Nat` of fixed length,
  `std::unordered_set` is `Finset Nat`, `std::unordered_map` is an association list
  `List (Nat × Nat)` (insertion order stands in for the unspecified iteration order).
-/

namespace RTG

/-- `2^64`, the modulus of `unsigned long` arithmetic. -/
def U64 : Nat := 2 ^ 64

/-- Wraparound of `2^63`, used by `toLong`. -/
def I64HALF : Nat := 2 ^ 63

/-- `static_cast<long>(v)` for an `unsigned long` value `v < 2^64`. -/
def toLong (v : Nat) : Int :=
  if v < I64HALF then (v : Int) else (v : Int) - (U64 : Int)

/-- Truncation of a (nonnegative) double to `unsigned long`
    (`double -> unsigned long` conversion in the source). -/
def qToULong (q : ℚ) : Nat := (Int.floor q).toNat

-- Constants from src/autotrader.cc lines 36-43.
def LOT_SIZE : Nat := 200
def UNLOAD : Int := 25
def POSITION_LIMIT : Nat := 100
def TICK_SIZE_IN_CENTS : Nat := 100

/-- Modelled from the spec: `MINIMUM_BID` comes from the external
    `ready_trader_go/types.h`, which is not under src/; its exact value is
    irrelevant to every claim (it only feeds the fixed hedge-order price). -/
def MINIMUM_BID : Nat := 1

/-- Modelled from the spec: `MAXIMUM_ASK` comes from the external
    `ready_trader_go/types.h`, which is not under src/; its exact value is
    irrelevant to every claim (it only feeds the fixed hedge-order price). -/
def MAXIMUM_ASK : Nat := 2147483647

def MIN_BID_NEAREST_TICK : Nat :=
  (MINIMUM_BID + TICK_SIZE_IN_CENTS) / TICK_SIZE_IN_CENTS * TICK_SIZE_IN_CENTS

def MAX_ASK_NEAREST_TICK : Nat :=
  MAXIMUM_ASK / TICK_SIZE_IN_CENTS * TICK_SIZE_IN_CENTS

-- Module-level window periods, src/autotrader.cc lines 54-56.
def conversion_line_size : Nat := 9
def baseline_size : Nat := 26
def leading_span_b_window : Nat := 52

/-- Order side (`ReadyTraderGo::Side`). -/
inductive Side
  | BUY
  | SELL
deriving DecidableEq, Repr

/-- Instrument (`ReadyTraderGo::Instrument`). -/
inductive Instrument
  | FUTURE
  | ETF
deriving DecidableEq, Repr

/-- Messages the autotrader sends to the order gateway. -/
inductive Action
  | cancelOrder (clientOrderId : Nat)
  | insertOrder (clientOrderId : Nat) (side : Side) (price volume : Nat)
  | hedgeOrder (clientOrderId : Nat) (side : Side) (price volume : Nat)
deriving DecidableEq, Repr

/-- The Ichimoku trading signal (src/autotrader.cc lines 47-52). -/
inductive IchimokuSignal
  | BUY
  | SELL
  | NEUTRAL
deriving DecidableEq, Repr

/-- `AutoTrader::updateCircularBufferWithNewValue` (src/autotrader.cc lines 112-127).
    Returns `(buffer, index, count, sum)` after the push; the `sum` updates follow
    the source's `unsigned long` arithmetic (mod `2^64`). -/
def updateCircularBufferWithNewValue (buffer : List Nat) (index count : Nat)
    (newValue : Nat) (sum : Nat) (maxSize : Nat) : List Nat × Nat × Nat × Nat :=
  if count < maxSize then
    (buffer.set index newValue, (index + 1) % maxSize, count + 1, (sum + newValue) % U64)
  else
    (buffer.set index newValue, (index + 1) % maxSize, count,
      ((sum + (U64 - buffer.getD index 0 % U64)) % U64 + newValue) % U64)

/-- A sliding-window accumulator: one buffer with its cursor, fill count and
    running sum, as operated on by `updateCircularBufferWithNewValue`. -/
structure SlidingWindow where
  buffer : List Nat
  index : Nat
  count : Nat
  sum : Nat
deriving DecidableEq, Repr

/-- One push into a `SlidingWindow` of capacity `maxSize`. -/
def pushWindow (maxSize : Nat) (w : SlidingWindow) (v : Nat) : SlidingWindow :=
  let r := updateCircularBufferWithNewValue w.buffer w.index w.count v w.sum maxSize
  ⟨r.1, r.2.1, r.2.2.1, r.2.2.2⟩

/-- A freshly constructed window of capacity `N`
    (`std::vector<unsigned long>` value-initialises to zeros). -/
def initWindow (N : Nat) : SlidingWindow := ⟨List.replicate N 0, 0, 0, 0⟩

/-- Push a whole sequence of values into a fresh window of capacity `N`. -/
def runPushes (N : Nat) (vs : List Nat) : SlidingWindow :=
  vs.foldl (pushWindow N) (initWindow N)

/-- The last `min (vs.length) N` values of `vs`. -/
def lastN (N : Nat) (vs : List Nat) : List Nat := vs.drop (vs.length - N)

/-- The free-standing indicator state (src/autotrader.cc lines 59-73). -/
structure IndState where
  conversionLineBuffer : List Nat
  baselineBuffer : List Nat
  leadingSpanBBuffer : List Nat
  laggingSpanBuffer : List Nat
  conversionLineSum : Nat
  baselineSum : Nat
  leadingSpanBSum : Nat
  conversionLineIndex : Nat
  baselineIndex : Nat
  leadingSpanBIndex : Nat
  laggingSpanIndex : Nat
  conversionLineCount : Nat
  baselineCount : Nat
  leadingSpanBCount : Nat
  laggingSpanCount : Nat
deriving DecidableEq, Repr

/-- Initial indicator state: zero-filled buffers of the declared sizes,
    zero sums, indices and counts (src/autotrader.cc lines 59-73). -/
def initIndState : IndState :=
  { conversionLineBuffer := List.replicate conversion_line_size 0
    baselineBuffer := List.replicate baseline_size 0
    leadingSpanBBuffer := List.replicate leading_span_b_window 0
    laggingSpanBuffer := List.replicate baseline_size 0
    conversionLineSum := 0
    baselineSum := 0
    leadingSpanBSum := 0
    conversionLineIndex := 0
    baselineIndex := 0
    leadingSpanBIndex := 0
    laggingSpanIndex := 0
    conversionLineCount := 0
    baselineCount := 0
    leadingSpanBCount := 0
    laggingSpanCount := 0 }

/-- The lagging-span comparison index
    `(laggingSpanIndex - baseline_size + laggingSpanBuffer.size()) % laggingSpanBuffer.size()`
    (src/autotrader.cc lines 162-163): the `int` difference is converted to `size_t`
    (mod `2^64`) when added to `size()`, then reduced mod the buffer size. -/
def laggingComparisonIndex (laggingSpanIndex bufSize : Nat) : Nat :=
  (((((laggingSpanIndex : Int) - (baseline_size : Int)) % (U64 : Int)).toNat) + bufSize)
    % U64 % bufSize

/-- `AutoTrader::Ichimoku` (src/autotrader.cc lines 131-182): mutates the four
    windows and classifies the signal.  Note the source passes `leadingSpanBSum`
    (not a lagging sum) as the sum reference of the lagging-span push at line 154,
    so the new `leadingSpanBSum` is `h.2.2.2` below.  Volumes are unused, as in
    the source.  In the source the BUY test and the SELL test are two separate
    `if` statements on a variable initialised to NEUTRAL, so SELL overwrites BUY
    when both hold. -/
def ichimokuStep (g : IndState)
    (askPrices askVolumes bidPrices bidVolumes : List Nat) : IndState × IchimokuSignal :=
  let currentPrice := ((bidPrices.getD 0 0 + askPrices.getD 0 0) % U64) / 2
  let c := updateCircularBufferWithNewValue g.conversionLineBuffer g.conversionLineIndex
    g.conversionLineCount currentPrice g.conversionLineSum conversion_line_size
  let conversionLine := c.2.2.2 / c.2.2.1
  let b := updateCircularBufferWithNewValue g.baselineBuffer g.baselineIndex
    g.baselineCount conversionLine g.baselineSum baseline_size
  let baseline := b.2.2.2 / b.2.2.1
  let leadingSpanA := ((conversionLine + baseline) % U64) / 2
  let l := updateCircularBufferWithNewValue g.leadingSpanBBuffer g.leadingSpanBIndex
    g.leadingSpanBCount conversionLine g.leadingSpanBSum leading_span_b_window
  let leadingSpanB := ((l.2.2.2 + baseline) % U64) / 2
  let h := updateCircularBufferWithNewValue g.laggingSpanBuffer g.laggingSpanIndex
    g.laggingSpanCount currentPrice l.2.2.2 baseline_size
  let laggingSpan := h.1.getD h.2.1 0
  let comparisonSample := h.1.getD (laggingComparisonIndex h.2.1 h.1.length) 0
  let priceAboveCloud := min leadingSpanA leadingSpanB < currentPrice
  let priceBelowCloud := currentPrice < max leadingSpanA leadingSpanB
  let priceAboveConversionAndBase := conversionLine < currentPrice ∧ baseline < currentPrice
  let priceBelowConversionAndBase := currentPrice < conversionLine ∧ currentPrice < baseline
  let laggingSpanAbovePrice := comparisonSample < laggingSpan
  let laggingSpanBelowPrice := laggingSpan < comparisonSample
  let signal :=
    if (priceBelowCloud ∨ priceBelowConversionAndBase) ∧ laggingSpanBelowPrice then
      IchimokuSignal.SELL
    else if (priceAboveCloud ∨ priceAboveConversionAndBase) ∧ laggingSpanAbovePrice then
      IchimokuSignal.BUY
    else IchimokuSignal.NEUTRAL
  ({ conversionLineBuffer := c.1
     baselineBuffer := b.1
     leadingSpanBBuffer := l.1
     laggingSpanBuffer := h.1
     conversionLineSum := c.2.2.2
     baselineSum := b.2.2.2
     leadingSpanBSum := h.2.2.2
     conversionLineIndex := c.2.1
     baselineIndex := b.2.1
     leadingSpanBIndex := l.2.1
     laggingSpanIndex := h.2.1
     conversionLineCount := c.2.2.1
     baselineCount := b.2.2.1
     leadingSpanBCount := l.2.2.1
     laggingSpanCount := h.2.2.1 }, signal)

/-- The trader's private state (src/autotrader.h lines 210-223). -/
structure TraderState where
  mNextMessageId : Nat
  mAskId : Nat
  mBidId : Nat
  mAskPrice : Nat
  mBidPrice : Nat
  mPosition : Int
  mHedges : Int
  mAsks : Finset Nat
  mBids : Finset Nat
  shortInventory : List (Nat × Nat)
  longInventory : List (Nat × Nat)
  lotSize : List (Nat × Nat)
  PendingCancelAsk : Bool
  PendingCancelBid : Bool
deriving DecidableEq

/-- Initial trader state (member initialisers in src/autotrader.h). -/
def initTraderState : TraderState :=
  { mNextMessageId := 1
    mAskId := 0
    mBidId := 0
    mAskPrice := 0
    mBidPrice := 0
    mPosition := 0
    mHedges := 0
    mAsks := ∅
    mBids := ∅
    shortInventory := []
    longInventory := []
    lotSize := []
    PendingCancelAsk := false
    PendingCancelBid := false }

/-- Association-list lookup (`unordered_map::find`). -/
def mapFind (m : List (Nat × Nat)) (k : Nat) : Option Nat :=
  (m.find? (fun e => e.1 == k)).map (fun e => e.2)

/-- `unordered_map::emplace`: insert only if the key is absent. -/
def mapEmplace (m : List (Nat × Nat)) (k v : Nat) : List (Nat × Nat) :=
  if (m.find? (fun e => e.1 == k)).isSome then m else m ++ [(k, v)]

/-- `m[k] = f(m[k])` with `operator[]` default-inserting `0` when `k` is absent. -/
def mapUpdate (m : List (Nat × Nat)) (k : Nat) (f : Nat → Nat) : List (Nat × Nat) :=
  match m with
  | [] => [(k, f 0)]
  | (a, b) :: rest => if a = k then (a, f b) :: rest else (a, b) :: mapUpdate rest k f

/-- `longInventory[id] += fees` on the `unsigned long` mapped value. -/
def feesAdd (v : Nat) (fees : Int) : Nat := (((v : Int) + fees) % (U64 : Int)).toNat

/-- `shortInventory[id] -= fees` on the `unsigned long` mapped value. -/
def feesSub (v : Nat) (fees : Int) : Nat := (((v : Int) - fees) % (U64 : Int)).toNat

/-- `WeightedAverageSpread` (src/autotrader.cc lines 186-213).  The `double`
    accumulators are modelled as exact rationals; the per-level half-spread is
    the `unsigned long` value `(askPrices[i] - bidPrices[i]) >> 1` (wrapping
    subtraction), and the level volume is `min(askVolumes[i], bidVolumes[i])`. -/
def weightedAverageSpread (askPrices askVolumes bidPrices bidVolumes : List Nat) : ℚ :=
  let r := [0, 1, 2, 3, 4].foldl
    (fun (acc : ℚ × ℚ) (i : Nat) =>
      if askPrices.getD i 0 ≠ 0 ∧ bidPrices.getD i 0 ≠ 0 then
        let spread : ℚ :=
          ((((askPrices.getD i 0 : Int) - (bidPrices.getD i 0 : Int)) % (U64 : Int)).toNat
            / 2 : Nat)
        let spreadVolume : ℚ := (min (askVolumes.getD i 0) (bidVolumes.getD i 0) : Nat)
        (acc.1 + spreadVolume, acc.2 + spread * spreadVolume)
      else acc)
    (0, 0)
  if 0 < r.1 then r.2 / r.1 else 0

/-- `priceAdjustment = -(mPosition / LOT_SIZE) * TICK_SIZE_IN_CENTS`
    (src/autotrader.cc line 232): signed truncating division, then the `long`
    result is converted to `unsigned long`. -/
def priceAdjustmentOf (mPosition : Int) : Nat :=
  ((-(mPosition.tdiv (LOT_SIZE : Int)) * (TICK_SIZE_IN_CENTS : Int)) % (U64 : Int)).toNat

/-- `newAskPrice` (src/autotrader.cc lines 234, 236): tick-rounded
    `askPrices[0] + priceAdjustment + weightedAverageSpread`, or `0` if no ask. -/
def newAskPriceOf (mPosition : Int)
    (askPrices askVolumes bidPrices bidVolumes : List Nat) : Nat :=
  let was := weightedAverageSpread askPrices askVolumes bidPrices bidVolumes
  let raw :=
    if askPrices.getD 0 0 ≠ 0 then
      qToULong ((((askPrices.getD 0 0 + priceAdjustmentOf mPosition) % U64 : Nat) : ℚ) + was)
    else 0
  raw / TICK_SIZE_IN_CENTS * TICK_SIZE_IN_CENTS

/-- `newBidPrice` (src/autotrader.cc lines 235, 237): tick-rounded
    `bidPrices[0] + priceAdjustment - weightedAverageSpread`, or `0` if no bid. -/
def newBidPriceOf (mPosition : Int)
    (askPrices askVolumes bidPrices bidVolumes : List Nat) : Nat :=
  let was := weightedAverageSpread askPrices askVolumes bidPrices bidVolumes
  let raw :=
    if bidPrices.getD 0 0 ≠ 0 then
      qToULong ((((bidPrices.getD 0 0 + priceAdjustmentOf mPosition) % U64 : Nat) : ℚ) - was)
    else 0
  raw / TICK_SIZE_IN_CENTS * TICK_SIZE_IN_CENTS

/-- `askQuantity = min(LOT_SIZE, (unsigned long)(POSITION_LIMIT + mPosition))`
    (src/autotrader.cc line 238). -/
def askQuantityOf (mPosition : Int) : Nat :=
  min LOT_SIZE ((((POSITION_LIMIT : Int) + mPosition) % (U64 : Int)).toNat)

/-- `bidQuantity = min(LOT_SIZE, (unsigned long)(POSITION_LIMIT - mPosition))`
    (src/autotrader.cc line 239). -/
def bidQuantityOf (mPosition : Int) : Nat :=
  min LOT_SIZE ((((POSITION_LIMIT : Int) - mPosition) % (U64 : Int)).toNat)

/-- The ask-side cancel/replace block (src/autotrader.cc lines 243-258, and its
    verbatim copies at lines 299-313 and 328-342).  Note the source sets
    `PendingCancelAsk = true` *before* testing `!PendingCancelAsk`, so when an
    active ask exists only the cancel is sent. -/
def tryReplaceAsk (s : TraderState) (newAskPrice askQuantity : Nat) :
    TraderState × List Action :=
  if newAskPrice ≠ 0 ∧ newAskPrice ≠ s.mAskPrice then
    let s1 := if s.mAskId ≠ 0 then { s with PendingCancelAsk := true } else s
    let a1 : List Action := if s.mAskId ≠ 0 then [Action.cancelOrder s.mAskId] else []
    let s2 :=
      if s1.PendingCancelAsk = false ∧ 0 < askQuantity then
        { s1 with mAskId := s1.mNextMessageId
                  mNextMessageId := (s1.mNextMessageId + 1) % U64
                  mAsks := insert s1.mNextMessageId s1.mAsks }
      else s1
    let a2 : List Action :=
      if s1.PendingCancelAsk = false ∧ 0 < askQuantity then
        [Action.insertOrder s1.mNextMessageId Side.SELL newAskPrice askQuantity]
      else []
    ({ s2 with mAskPrice := newAskPrice }, a1 ++ a2)
  else (s, [])

/-- The bid-side cancel/replace block (src/autotrader.cc lines 259-274, and its
    verbatim copies at lines 280-294 and 353-367). -/
def tryReplaceBid (s : TraderState) (newBidPrice bidQuantity : Nat) :
    TraderState × List Action :=
  if newBidPrice ≠ 0 ∧ newBidPrice ≠ s.mBidPrice then
    let s1 := if s.mBidId ≠ 0 then { s with PendingCancelBid := true } else s
    let a1 : List Action := if s.mBidId ≠ 0 then [Action.cancelOrder s.mBidId] else []
    let s2 :=
      if s1.PendingCancelBid = false ∧ 0 < bidQuantity then
        { s1 with mBidId := s1.mNextMessageId
                  mNextMessageId := (s1.mNextMessageId + 1) % U64
                  mBids := insert s1.mNextMessageId s1.mBids }
      else s1
    let a2 : List Action :=
      if s1.PendingCancelBid = false ∧ 0 < bidQuantity then
        [Action.insertOrder s1.mNextMessageId Side.BUY newBidPrice bidQuantity]
      else []
    ({ s2 with mBidPrice := newBidPrice }, a1 ++ a2)
  else (s, [])

/-- The gate of the BUY branch, src/autotrader.cc line 277:
    `leadingSpanBBuffer.size() >= 52` — the vector's size, not its fill count. -/
def buySignalGate (g : IndState) : Bool :=
  decide (52 ≤ g.leadingSpanBBuffer.length)

/-- One iteration of the long-inventory profit-taking loop
    (src/autotrader.cc lines 320-345): the guard at line 322 reads the current
    `mAskPrice`, and the replacement block is `tryReplaceAsk`. -/
def longLoopBody (newAskPrice askQuantity currentPrice : Nat)
    (acc : TraderState × List Action) (e : Nat × Nat) : TraderState × List Action :=
  if newAskPrice ≠ 0 ∧ newAskPrice ≠ acc.1.mAskPrice then
    if e.2 < currentPrice then
      let r := tryReplaceAsk acc.1 newAskPrice askQuantity
      (r.1, acc.2 ++ r.2)
    else acc
  else acc

/-- One iteration of the short-inventory profit-taking loop
    (src/autotrader.cc lines 347-369). -/
def shortLoopBody (newBidPrice bidQuantity currentPrice : Nat)
    (acc : TraderState × List Action) (e : Nat × Nat) : TraderState × List Action :=
  if currentPrice < e.2 then
    let r := tryReplaceBid acc.1 newBidPrice bidQuantity
    (r.1, acc.2 ++ r.2)
  else acc

/-- Profit-taking loop over `longInventory` (src/autotrader.cc lines 320-345). -/
def profitTakeLong (newAskPrice askQuantity currentPrice : Nat)
    (entries : List (Nat × Nat)) (s : TraderState) : TraderState × List Action :=
  entries.foldl (longLoopBody newAskPrice askQuantity currentPrice) (s, [])

/-- Profit-taking loop over `shortInventory` (src/autotrader.cc lines 347-369). -/
def profitTakeShort (newBidPrice bidQuantity currentPrice : Nat)
    (entries : List (Nat × Nat)) (s : TraderState) : TraderState × List Action :=
  entries.foldl (shortLoopBody newBidPrice bidQuantity currentPrice) (s, [])

/-- The tail of `OrderBookMessageHandler` after the two quote-replacement blocks
    (src/autotrader.cc lines 276-370): the Ichimoku signal branches, then the
    profit-taking overlay.  `st` is the trader state after the bid block; the
    prices, quantities and `currentPrice` were computed from the original state
    at lines 231-239. -/
def orderBookTail (g : IndState) (st : TraderState)
    (newAskPrice newBidPrice askQuantity bidQuantity currentPrice : Nat)
    (askPrices askVolumes bidPrices bidVolumes : List Nat) :
    (IndState × TraderState) × List Action :=
  let gi := ichimokuStep g askPrices askVolumes bidPrices bidVolumes
  let r3 :=
    if buySignalGate gi.1 = true ∧ gi.2 = IchimokuSignal.BUY then
      tryReplaceBid st newBidPrice bidQuantity
    else if gi.2 = IchimokuSignal.SELL then
      tryReplaceAsk st newAskPrice askQuantity
    else (st, [])
  let r4 :=
    if UNLOAD ≤ r3.1.mPosition ∨ r3.1.mPosition ≤ -UNLOAD then
      let p1 := profitTakeLong newAskPrice askQuantity currentPrice r3.1.longInventory r3.1
      let p2 := profitTakeShort newBidPrice bidQuantity currentPrice p1.1.shortInventory p1.1
      (p2.1, p1.2 ++ p2.2)
    else (r3.1, ([] : List Action))
  ((gi.1, r4.1), r3.2 ++ r4.2)

/-- `AutoTrader::OrderBookMessageHandler` (src/autotrader.cc lines 217-372). -/
def orderBookMessageHandler (g : IndState) (s : TraderState) (instrument : Instrument)
    (sequenceNumber : Nat) (askPrices askVolumes bidPrices bidVolumes : List Nat) :
    (IndState × TraderState) × List Action :=
  let currentPrice := ((bidPrices.getD 0 0 + askPrices.getD 0 0) % U64) / 2
  let newAskPrice := newAskPriceOf s.mPosition askPrices askVolumes bidPrices bidVolumes
  let newBidPrice := newBidPriceOf s.mPosition askPrices askVolumes bidPrices bidVolumes
  let askQuantity := askQuantityOf s.mPosition
  let bidQuantity := bidQuantityOf s.mPosition
  if instrument = Instrument.FUTURE then
    let r1 := tryReplaceAsk s newAskPrice askQuantity
    let r2 := tryReplaceBid r1.1 newBidPrice bidQuantity
    let t := orderBookTail g r2.1 newAskPrice newBidPrice askQuantity bidQuantity
      currentPrice askPrices askVolumes bidPrices bidVolumes
    (t.1, r1.2 ++ r2.2 ++ t.2)
  else ((g, s), [])

/-- `AutoTrader::OrderFilledMessageHandler` (src/autotrader.cc lines 376-401). -/
def orderFilledMessageHandler (s : TraderState) (clientOrderId price volume : Nat) :
    TraderState × List Action :=
  if clientOrderId ∈ s.mAsks then
    let newPosition := s.mPosition - toLong volume
    let s1 :=
      if (newPosition + s.mHedges).natAbs ≤ POSITION_LIMIT ∧
          newPosition.natAbs ≤ POSITION_LIMIT then
        { s with mPosition := newPosition }
      else s
    ({ s1 with mNextMessageId := (s1.mNextMessageId + 1) % U64
               shortInventory := mapEmplace s1.shortInventory clientOrderId price
               lotSize := mapEmplace s1.lotSize clientOrderId volume },
      [Action.hedgeOrder s1.mNextMessageId Side.BUY MAX_ASK_NEAREST_TICK volume])
  else if clientOrderId ∈ s.mBids then
    let newPosition := s.mPosition + toLong volume
    let s1 :=
      if (newPosition - s.mHedges).natAbs ≤ POSITION_LIMIT ∧
          newPosition.natAbs ≤ POSITION_LIMIT then
        { s with mPosition := newPosition }
      else s
    ({ s1 with mNextMessageId := (s1.mNextMessageId + 1) % U64
               longInventory := mapEmplace s1.longInventory clientOrderId price
               lotSize := mapEmplace s1.lotSize clientOrderId volume },
      [Action.hedgeOrder s1.mNextMessageId Side.SELL MIN_BID_NEAREST_TICK volume])
  else
    ({ s with lotSize := mapEmplace s.lotSize clientOrderId volume }, [])

/-- Comparison definition following the claim's words: the fill handler with the
    hedge-adjusted exposure check replaced by the plain `|newPosition| ≤ limit`
    check alone (used to state that the two coincide when `mHedges = 0`). -/
def orderFilledPlainCheck (s : TraderState) (clientOrderId price volume : Nat) :
    TraderState × List Action :=
  if clientOrderId ∈ s.mAsks then
    let newPosition := s.mPosition - toLong volume
    let s1 :=
      if newPosition.natAbs ≤ POSITION_LIMIT then { s with mPosition := newPosition } else s
    ({ s1 with mNextMessageId := (s1.mNextMessageId + 1) % U64
               shortInventory := mapEmplace s1.shortInventory clientOrderId price
               lotSize := mapEmplace s1.lotSize clientOrderId volume },
      [Action.hedgeOrder s1.mNextMessageId Side.BUY MAX_ASK_NEAREST_TICK volume])
  else if clientOrderId ∈ s.mBids then
    let newPosition := s.mPosition + toLong volume
    let s1 :=
      if newPosition.natAbs ≤ POSITION_LIMIT then { s with mPosition := newPosition } else s
    ({ s1 with mNextMessageId := (s1.mNextMessageId + 1) % U64
               longInventory := mapEmplace s1.longInventory clientOrderId price
               lotSize := mapEmplace s1.lotSize clientOrderId volume },
      [Action.hedgeOrder s1.mNextMessageId Side.SELL MIN_BID_NEAREST_TICK volume])
  else
    ({ s with lotSize := mapEmplace s.lotSize clientOrderId volume }, [])

/-- `AutoTrader::OrderStatusMessageHandler` (src/autotrader.cc lines 405-439). -/
def orderStatusMessageHandler (s : TraderState)
    (clientOrderId fillVolume remainingVolume : Nat) (fees : Int) : TraderState :=
  if remainingVolume = 0 then
    let s1 :=
      if clientOrderId = s.mAskId then { s with mAskId := 0, PendingCancelAsk := false }
      else if clientOrderId = s.mBidId then { s with mBidId := 0, PendingCancelBid := false }
      else s
    let s2 := if clientOrderId ∈ s1.mAsks then { s1 with mAsks := s1.mAsks.erase clientOrderId }
      else s1
    let s3 := if clientOrderId ∈ s2.mBids then { s2 with mBids := s2.mBids.erase clientOrderId }
      else s2
    s3
  else
    { s with longInventory := mapUpdate s.longInventory clientOrderId (fun v => feesAdd v fees)
             shortInventory :=
               mapUpdate s.shortInventory clientOrderId (fun v => feesSub v fees)
             lotSize := mapUpdate s.lotSize clientOrderId (fun _ => remainingVolume) }

/-- `AutoTrader::ErrorMessageHandler` (src/autotrader.cc lines 89-99). -/
def errorMessageHandler (s : TraderState) (clientOrderId : Nat) : TraderState :=
  if clientOrderId ≠ 0 ∧ (clientOrderId ∈ s.mAsks ∨ clientOrderId ∈ s.mBids) then
    orderStatusMessageHandler s clientOrderId 0 0 0
  else s

/-- Inbound events delivered by the (serialised) event loop. -/
inductive Event
  | orderBook (instrument : Instrument) (sequenceNumber : Nat)
      (askPrices askVolumes bidPrices bidVolumes : List Nat)
  | orderFilled (clientOrderId price volume : Nat)
  | orderStatus (clientOrderId fillVolume remainingVolume : Nat) (fees : Int)
  | errorMessage (clientOrderId : Nat)
  | hedgeFilled (clientOrderId price volume : Nat)
  | tradeTicks (instrument : Instrument) (sequenceNumber : Nat)
      (askPrices askVolumes bidPrices bidVolumes : List Nat)

/-- One handler invocation on the full (indicator, trader) state. -/
def step (gs : IndState × TraderState) (e : Event) : IndState × TraderState :=
  match e with
  | .orderBook instr seq ap av bp bv =>
      (orderBookMessageHandler gs.1 gs.2 instr seq ap av bp bv).1
  | .orderFilled id p v => (gs.1, (orderFilledMessageHandler gs.2 id p v).1)
  | .orderStatus id f r fees => (gs.1, orderStatusMessageHandler gs.2 id f r fees)
  | .errorMessage id => (gs.1, errorMessageHandler gs.2 id)
  | .hedgeFilled _ _ _ => gs
  | .tradeTicks _ _ _ _ _ _ => gs

/-- Run a sequence of events from the initial state. -/
def run (evs : List Event) : IndState × TraderState :=
  evs.foldl step (initIndState, initTraderState)

/-- A trader state with an active ask order 5 quoted (no cancel pending),
    used for concrete evaluations of the cancel/replace behaviour. -/
def c5State : TraderState := { initTraderState with mAskId := 5, mAsks := {5} }

/-- A trader state with an active ask order 5 and an active bid order 6 quoted
    (no cancels pending), used for concrete evaluations of the cancel/replace
    behaviour on both quote sides. -/
def c5BothState : TraderState :=
  { initTraderState with mAskId := 5, mAsks := {5}, mBidId := 6, mBids := {6} }

/-- A trader state with an active ask order 5 and a recorded lot size,
    used for concrete evaluations of the status handler. -/
def c7State : TraderState :=
  { initTraderState with mAskId := 5, mAsks := {5}, lotSize := [(5, 10)] }

/-- The state invariant a sliding window of capacity `N` satisfies after the
    value sequence `vs` has been pushed into a fresh window: buffer length,
    cursor position, fill count, running sum (mod `2^64`), and the contents of
    every live slot. -/
def windowInv (N : Nat) (vs : List Nat) (w : SlidingWindow) : Prop :=
  w.buffer.length = N ∧ w.index = vs.length % N ∧ w.count = min vs.length N ∧
    w.sum = (lastN N vs).sum % U64 ∧
    ∀ t, t < vs.length → vs.length ≤ t + N → w.buffer.getD (t % N) 0 = vs.getD t 0

-- ## Helper lemmas

lemma update_index_eq (buffer : List Nat) (index count newValue sum maxSize : Nat) :
    (updateCircularBufferWithNewValue buffer index count newValue sum maxSize).2.1
      = (index + 1) % maxSize := by
  unfold updateCircularBufferWithNewValue; split <;> rfl

lemma update_buffer_length (buffer : List Nat) (index count newValue sum maxSize : Nat) :
    (updateCircularBufferWithNewValue buffer index count newValue sum maxSize).1.length
      = buffer.length := by
  unfold updateCircularBufferWithNewValue; split <;> simp

lemma getD_set_self (l : List Nat) (i v : Nat) (h : i < l.length) :
    (l.set i v).getD i 0 = v := by
  simp [List.getD_eq_getElem?_getD, List.getElem?_set, h]

lemma getD_set_ne (l : List Nat) (i j v : Nat) (h : i ≠ j) :
    (l.set i v).getD j 0 = l.getD j 0 := by
  simp [List.getD_eq_getElem?_getD, List.getElem?_set, h]

lemma getD_mem (l : List Nat) (i : Nat) (h : i < l.length) : l.getD i 0 ∈ l := by
  rw [List.getD_eq_getElem l 0 h]; exact List.getElem_mem h

lemma mod_ne_of_between (t k N : Nat) (h1 : t < k) (h2 : k < t + N) : t % N ≠ k % N := by
  intro heq
  have hd : N ∣ k - t := (Nat.modEq_iff_dvd' (Nat.le_of_lt h1)).mp heq
  have hpos : 0 < k - t := by omega
  have := Nat.le_of_dvd hpos hd
  omega

lemma lastN_of_le (N : Nat) (vs : List Nat) (h : vs.length ≤ N) : lastN N vs = vs := by
  unfold lastN; rw [Nat.sub_eq_zero_of_le h, List.drop_zero]

lemma windowInv_push (N : Nat) (hN : 0 < N) (vs : List Nat) (v : Nat)
    (hv : ∀ x ∈ vs, x < U64) (w : SlidingWindow) (h : windowInv N vs w) :
    windowInv N (vs ++ [v]) (pushWindow N w v) := by
  obtain ⟨hlen, hidx, hcnt, hsum, hbuf⟩ := h
  by_cases hfull : vs.length < N
  · have hcountlt : w.count < N := by rw [hcnt]; omega
    have hidx2 : w.index = vs.length := by rw [hidx, Nat.mod_eq_of_lt hfull]
    have hpw : pushWindow N w v =
        ⟨w.buffer.set w.index v, (w.index + 1) % N, w.count + 1, (w.sum + v) % U64⟩ := by
      unfold pushWindow updateCircularBufferWithNewValue
      rw [if_pos hcountlt]
    rw [hpw]
    refine ⟨by simp [hlen], ?_, ?_, ?_, ?_⟩
    · show (w.index + 1) % N = (vs ++ [v]).length % N
      rw [hidx, List.length_append, List.length_singleton, Nat.mod_add_mod]
    · show w.count + 1 = min (vs ++ [v]).length N
      rw [hcnt, List.length_append]; simp; omega
    · show (w.sum + v) % U64 = (lastN N (vs ++ [v])).sum % U64
      rw [hsum, Nat.mod_add_mod, lastN_of_le N vs (Nat.le_of_lt hfull),
        lastN_of_le N (vs ++ [v]) (by simp; omega)]
      simp
    · intro t ht1 ht2
      rw [List.length_append, List.length_singleton] at ht1
      rcases Nat.lt_or_ge t vs.length with htlt | htge
      · show (w.buffer.set w.index v).getD (t % N) 0 = (vs ++ [v]).getD t 0
        rw [Nat.mod_eq_of_lt (by omega),
          getD_set_ne w.buffer w.index t v (by omega),
          List.getD_append vs [v] 0 t htlt]
        have := hbuf t htlt (by omega)
        rwa [Nat.mod_eq_of_lt (by omega)] at this
      · have hteq : t = vs.length := by omega
        subst hteq
        show (w.buffer.set w.index v).getD (vs.length % N) 0 = (vs ++ [v]).getD vs.length 0
        rw [Nat.mod_eq_of_lt hfull, hidx2,
          getD_set_self w.buffer vs.length v (by rw [hlen]; omega),
          List.getD_append_right vs [v] 0 vs.length (Nat.le_refl _)]
        simp
  · have hNk : N ≤ vs.length := by omega
    have hcountge : ¬ w.count < N := by rw [hcnt]; omega
    have hpw : pushWindow N w v =
        ⟨w.buffer.set w.index v, (w.index + 1) % N, w.count,
          ((w.sum + (U64 - w.buffer.getD w.index 0 % U64)) % U64 + v) % U64⟩ := by
      unfold pushWindow updateCircularBufferWithNewValue
      rw [if_neg hcountge]
    have hkpos : 0 < vs.length := by omega
    have hsub : vs.length - N < vs.length := by omega
    have hidxe : w.index = (vs.length - N) % N := by
      rw [hidx]
      conv_lhs => rw [show vs.length = (vs.length - N) + N by omega]
      rw [Nat.add_mod_right]
    have he : w.buffer.getD w.index 0 = vs.getD (vs.length - N) 0 := by
      rw [hidxe]
      exact hbuf (vs.length - N) hsub (by omega)
    have heU : w.buffer.getD w.index 0 < U64 := by
      rw [he]; exact hv _ (getD_mem vs (vs.length - N) hsub)
    have hdrop : vs.drop (vs.length - N) = vs.getD (vs.length - N) 0 :: vs.drop (vs.length - N + 1) := by
      rw [List.getD_eq_getElem vs 0 hsub]
      exact List.drop_eq_getElem_cons hsub
    have heS : (lastN N vs).sum
        = vs.getD (vs.length - N) 0 + (vs.drop (vs.length - N + 1)).sum := by
      unfold lastN; rw [hdrop]; simp
    rw [hpw]
    refine ⟨by simp [hlen], ?_, ?_, ?_, ?_⟩
    · show (w.index + 1) % N = (vs ++ [v]).length % N
      rw [hidx, List.length_append, List.length_singleton, Nat.mod_add_mod]
    · show w.count = min (vs ++ [v]).length N
      rw [hcnt, List.length_append]; simp; omega
    · show ((w.sum + (U64 - w.buffer.getD w.index 0 % U64)) % U64 + v) % U64
        = (lastN N (vs ++ [v])).sum % U64
      rw [Nat.mod_eq_of_lt heU, hsum, Nat.mod_add_mod, Nat.add_assoc, Nat.mod_add_mod,
        ← Nat.add_assoc]
      have hrhs : lastN N (vs ++ [v]) = vs.drop (vs.length - N + 1) ++ [v] := by
        unfold lastN
        rw [List.length_append, List.length_singleton, List.drop_append_eq_append_drop]
        have h1 : vs.length + 1 - N - vs.length = 0 := by omega
        have h2 : vs.length + 1 - N = vs.length - N + 1 := by omega
        rw [h1, h2, List.drop_zero]
      rw [hrhs, List.sum_append, List.sum_singleton]
      have harith : (lastN N vs).sum + (U64 - w.buffer.getD w.index 0) + v
          = ((vs.drop (vs.length - N + 1)).sum + v) + U64 := by
        rw [he] at heU ⊢
        omega
      rw [harith, Nat.add_mod_right]
    · intro t ht1 ht2
      rw [List.length_append, List.length_singleton] at ht1 ht2
      rcases Nat.lt_or_ge t vs.length with htlt | htge
      · show (w.buffer.set w.index v).getD (t % N) 0 = (vs ++ [v]).getD t 0
        rw [getD_set_ne w.buffer w.index (t % N) v
            (by rw [hidx]; exact (mod_ne_of_between t vs.length N htlt (by omega)).symm),
          List.getD_append vs [v] 0 t htlt]
        exact hbuf t htlt (by omega)
      · have hteq : t = vs.length := by omega
        subst hteq
        show (w.buffer.set w.index v).getD (vs.length % N) 0 = (vs ++ [v]).getD vs.length 0
        rw [← hidx,
          getD_set_self w.buffer w.index v (by rw [hlen, hidx]; exact Nat.mod_lt _ hN),
          List.getD_append_right vs [v] 0 vs.length (Nat.le_refl _)]
        simp

lemma runPushes_inv (N : Nat) (hN : 0 < N) (vs : List Nat) :
    (∀ x ∈ vs, x < U64) → windowInv N vs (runPushes N vs) := by
  induction vs using List.reverseRecOn with
  | nil =>
    intro _
    refine ⟨by simp [runPushes, initWindow], by simp [runPushes, initWindow], ?_, ?_, ?_⟩
    · simp [runPushes, initWindow]
    · simp [runPushes, initWindow, lastN]
    · intro t ht1 _; simp at ht1
  | append_singleton vs v ih =>
    intro hv
    have hv1 : ∀ x ∈ vs, x < U64 := fun x hx => hv x (by simp [hx])
    have hvv : v < U64 := hv v (by simp)
    have hstep := windowInv_push N hN vs v hv1 (runPushes N vs) (ih hv1)
    have hrw : runPushes N (vs ++ [v]) = pushWindow N (runPushes N vs) v := by
      simp [runPushes, List.foldl_append]
    rwa [hrw]

lemma laggingComparisonIndex_mod (i : Nat) : laggingComparisonIndex (i % 26) 26 = i % 26 := by
  unfold laggingComparisonIndex baseline_size U64
  have h : i % 26 < 26 := Nat.mod_lt _ (by norm_num)
  have hUi : ((2 ^ 64 : Nat) : Int) = 18446744073709551616 := by norm_num
  have hUn : (2 : Nat) ^ 64 = 18446744073709551616 := by norm_num
  rw [hUi, hUn]
  omega

-- ## Claims

/-- C4 (corrected): for every capacity `N > 0` and every push sequence of
    `unsigned long` values, the window's `count` is `min pushes N` (hence never
    exceeds `N`) and `sum` equals the sum of the last `min pushes N` values
    reduced modulo `2^64` — the source accumulates the sum in an `unsigned long`,
    so the claimed exact equality holds only below `2^64` (see
    `c4_counterexample`).  The capacity-3 scenario `[10,20,30,40]` holds exactly
    as claimed: sums `10,30,60,90`, final buffer `[40,20,30]`, count `3`. -/
theorem c4_sliding_window_sum (N : Nat) (vs : List Nat)
    (hN : 0 < N) (hv : ∀ x ∈ vs, x < U64) :
    ((runPushes N vs).count = min vs.length N ∧ (runPushes N vs).count ≤ N ∧
      (runPushes N vs).sum = (lastN N vs).sum % U64) ∧
    ((runPushes 3 [10]).sum = 10 ∧ (runPushes 3 [10, 20]).sum = 30 ∧
      (runPushes 3 [10, 20, 30]).sum = 60 ∧ (runPushes 3 [10, 20, 30, 40]).sum = 90 ∧
      (runPushes 3 [10, 20, 30, 40]).buffer = [40, 20, 30] ∧
      (runPushes 3 [10, 20, 30, 40]).count = 3) := by
  obtain ⟨h1, h2, h3, h4, h5⟩ := runPushes_inv N hN vs hv
  exact ⟨⟨h3, h3 ▸ Nat.min_le_right _ _, h4⟩, by decide⟩

/-- Witness for `c4_sliding_window_sum` at capacity 3 and pushes `[10,20,30,40]`. -/
theorem c4_witness :
    ((0 : Nat) < 3 ∧ ∀ x ∈ [10, 20, 30, 40], x < U64) ∧
    (((runPushes 3 [10, 20, 30, 40]).count = min ([10, 20, 30, 40] : List Nat).length 3 ∧
      (runPushes 3 [10, 20, 30, 40]).count ≤ 3 ∧
      (runPushes 3 [10, 20, 30, 40]).sum = (lastN 3 [10, 20, 30, 40]).sum % U64) ∧
      ((runPushes 3 [10]).sum = 10 ∧ (runPushes 3 [10, 20]).sum = 30 ∧
        (runPushes 3 [10, 20, 30]).sum = 60 ∧ (runPushes 3 [10, 20, 30, 40]).sum = 90 ∧
        (runPushes 3 [10, 20, 30, 40]).buffer = [40, 20, 30] ∧
        (runPushes 3 [10, 20, 30, 40]).count = 3)) :=
  ⟨⟨by decide, by decide⟩, c4_sliding_window_sum 3 [10, 20, 30, 40] (by decide) (by decide)⟩

/-- C4 counterexample: with capacity 2 and pushes `[2^63, 2^63]` the source's
    `unsigned long` sum wraps to `0`, while the exact sum of the last
    `min(pushes, N)` values is `2^64` — the claim's unqualified "sum equals the
    exact sum" is false. -/
theorem c4_counterexample :
    (runPushes 2 [2 ^ 63, 2 ^ 63]).sum ≠ (lastN 2 [2 ^ 63, 2 ^ 63]).sum := by decide

/-- C3 (confirmed): whenever the lagging-span buffer has its declared length
    (`baseline_size = 26`, true in every reachable state), the comparison index
    `(laggingSpanIndex - baseline_size + size) % size` equals the advanced
    cursor itself, so `laggingSpanAbovePrice` and `laggingSpanBelowPrice`
    compare a slot with itself; both are false and `Ichimoku` returns NEUTRAL
    on every call, whatever the order-book input. -/
theorem c3_ichimoku_always_neutral (g : IndState)
    (askPrices askVolumes bidPrices bidVolumes : List Nat)
    (hlen : g.laggingSpanBuffer.length = baseline_size) :
    (ichimokuStep g askPrices askVolumes bidPrices bidVolumes).2
      = IchimokuSignal.NEUTRAL := by
  simp only [ichimokuStep, update_index_eq, update_buffer_length, hlen, baseline_size,
    laggingComparisonIndex_mod]
  simp [lt_self_iff_false]

/-- Witness for `c3_ichimoku_always_neutral`: the initial indicator state with a
    concrete one-level book. -/
theorem c3_witness :
    initIndState.laggingSpanBuffer.length = baseline_size ∧
    (ichimokuStep initIndState [1200, 0, 0, 0, 0] [50, 0, 0, 0, 0] [1000, 0, 0, 0, 0]
      [50, 0, 0, 0, 0]).2 = IchimokuSignal.NEUTRAL :=
  ⟨by decide,
    c3_ichimoku_always_neutral initIndState [1200, 0, 0, 0, 0] [50, 0, 0, 0, 0]
      [1000, 0, 0, 0, 0] [50, 0, 0, 0, 0] (by decide)⟩

/-- C2 (code bug): the lagging-span push at src/autotrader.cc line 154 passes
    `leadingSpanBSum` as its sum reference, so after one order-book sample with
    midprice 10 the stored `leadingSpanBSum` is `20` while the leading-span-B
    buffer holds exactly `[10]` (sum `10`): the invariant
    `sum == Σ(buffer[0..count))` fails for the leading-span-B window after every
    full update, and the lagging-span window has no sum of its own. -/
theorem c2_lagging_push_corrupts_leading_span_b_sum :
    ((ichimokuStep initIndState [10, 0, 0, 0, 0] [1, 0, 0, 0, 0] [10, 0, 0, 0, 0]
        [1, 0, 0, 0, 0]).1).leadingSpanBSum = 20 ∧
    (((ichimokuStep initIndState [10, 0, 0, 0, 0] [1, 0, 0, 0, 0] [10, 0, 0, 0, 0]
        [1, 0, 0, 0, 0]).1).leadingSpanBBuffer.take
      ((ichimokuStep initIndState [10, 0, 0, 0, 0] [1, 0, 0, 0, 0] [10, 0, 0, 0, 0]
        [1, 0, 0, 0, 0]).1).leadingSpanBCount).sum = 10 := by decide

-- ## Preservation lemmas for the trader state

lemma tryReplaceAsk_mPosition (s : TraderState) (p q : Nat) :
    (tryReplaceAsk s p q).1.mPosition = s.mPosition := by
  simp only [tryReplaceAsk]; split_ifs <;> rfl

lemma tryReplaceAsk_mHedges (s : TraderState) (p q : Nat) :
    (tryReplaceAsk s p q).1.mHedges = s.mHedges := by
  simp only [tryReplaceAsk]; split_ifs <;> rfl

lemma tryReplaceBid_mPosition (s : TraderState) (p q : Nat) :
    (tryReplaceBid s p q).1.mPosition = s.mPosition := by
  simp only [tryReplaceBid]; split_ifs <;> rfl

lemma tryReplaceBid_mHedges (s : TraderState) (p q : Nat) :
    (tryReplaceBid s p q).1.mHedges = s.mHedges := by
  simp only [tryReplaceBid]; split_ifs <;> rfl

lemma longLoopBody_mPosition (np aq cp : Nat) (acc : TraderState × List Action)
    (e : Nat × Nat) : (longLoopBody np aq cp acc e).1.mPosition = acc.1.mPosition := by
  simp only [longLoopBody]; split_ifs <;> simp [tryReplaceAsk_mPosition]

lemma longLoopBody_mHedges (np aq cp : Nat) (acc : TraderState × List Action)
    (e : Nat × Nat) : (longLoopBody np aq cp acc e).1.mHedges = acc.1.mHedges := by
  simp only [longLoopBody]; split_ifs <;> simp [tryReplaceAsk_mHedges]

lemma shortLoopBody_mPosition (np bq cp : Nat) (acc : TraderState × List Action)
    (e : Nat × Nat) : (shortLoopBody np bq cp acc e).1.mPosition = acc.1.mPosition := by
  simp only [shortLoopBody]; split_ifs <;> simp [tryReplaceBid_mPosition]

lemma shortLoopBody_mHedges (np bq cp : Nat) (acc : TraderState × List Action)
    (e : Nat × Nat) : (shortLoopBody np bq cp acc e).1.mHedges = acc.1.mHedges := by
  simp only [shortLoopBody]; split_ifs <;> simp [tryReplaceBid_mHedges]

lemma foldLong_mPosition (np aq cp : Nat) (entries : List (Nat × Nat)) :
    ∀ acc : TraderState × List Action,
      (entries.foldl (longLoopBody np aq cp) acc).1.mPosition = acc.1.mPosition := by
  induction entries with
  | nil => intro acc; rfl
  | cons e t ih =>
    intro acc
    rw [List.foldl_cons, ih (longLoopBody np aq cp acc e), longLoopBody_mPosition]

lemma foldLong_mHedges (np aq cp : Nat) (entries : List (Nat × Nat)) :
    ∀ acc : TraderState × List Action,
      (entries.foldl (longLoopBody np aq cp) acc).1.mHedges = acc.1.mHedges := by
  induction entries with
  | nil => intro acc; rfl
  | cons e t ih =>
    intro acc
    rw [List.foldl_cons, ih (longLoopBody np aq cp acc e), longLoopBody_mHedges]

lemma foldShort_mPosition (np bq cp : Nat) (entries : List (Nat × Nat)) :
    ∀ acc : TraderState × List Action,
      (entries.foldl (shortLoopBody np bq cp) acc).1.mPosition = acc.1.mPosition := by
  induction entries with
  | nil => intro acc; rfl
  | cons e t ih =>
    intro acc
    rw [List.foldl_cons, ih (shortLoopBody np bq cp acc e), shortLoopBody_mPosition]

lemma foldShort_mHedges (np bq cp : Nat) (entries : List (Nat × Nat)) :
    ∀ acc : TraderState × List Action,
      (entries.foldl (shortLoopBody np bq cp) acc).1.mHedges = acc.1.mHedges := by
  induction entries with
  | nil => intro acc; rfl
  | cons e t ih =>
    intro acc
    rw [List.foldl_cons, ih (shortLoopBody np bq cp acc e), shortLoopBody_mHedges]

lemma orderBook_mPosition (g : IndState) (s : TraderState) (instr : Instrument)
    (seq : Nat) (ap av bp bv : List Nat) :
    (orderBookMessageHandler g s instr seq ap av bp bv).1.2.mPosition = s.mPosition := by
  simp only [orderBookMessageHandler, orderBookTail, profitTakeLong, profitTakeShort]
  split_ifs <;>
    simp [foldLong_mPosition, foldShort_mPosition, tryReplaceAsk_mPosition,
      tryReplaceBid_mPosition]

lemma orderBook_mHedges (g : IndState) (s : TraderState) (instr : Instrument)
    (seq : Nat) (ap av bp bv : List Nat) :
    (orderBookMessageHandler g s instr seq ap av bp bv).1.2.mHedges = s.mHedges := by
  simp only [orderBookMessageHandler, orderBookTail, profitTakeLong, profitTakeShort]
  split_ifs <;>
    simp [foldLong_mHedges, foldShort_mHedges, tryReplaceAsk_mHedges, tryReplaceBid_mHedges]

lemma orderFilled_mHedges (s : TraderState) (id p v : Nat) :
    (orderFilledMessageHandler s id p v).1.mHedges = s.mHedges := by
  simp only [orderFilledMessageHandler]; split_ifs <;> rfl

lemma orderFilled_pos_cases (s : TraderState) (id p v : Nat) :
    (orderFilledMessageHandler s id p v).1.mPosition = s.mPosition ∨
    ((orderFilledMessageHandler s id p v).1.mPosition.natAbs ≤ POSITION_LIMIT ∧
      (((orderFilledMessageHandler s id p v).1.mPosition + s.mHedges).natAbs ≤ POSITION_LIMIT ∨
        ((orderFilledMessageHandler s id p v).1.mPosition - s.mHedges).natAbs
          ≤ POSITION_LIMIT)) := by
  simp only [orderFilledMessageHandler]
  split_ifs <;> simp_all

lemma orderStatus_mPosition (s : TraderState) (id f r : Nat) (fees : Int) :
    (orderStatusMessageHandler s id f r fees).mPosition = s.mPosition := by
  simp only [orderStatusMessageHandler]; split_ifs <;> rfl

lemma orderStatus_mHedges (s : TraderState) (id f r : Nat) (fees : Int) :
    (orderStatusMessageHandler s id f r fees).mHedges = s.mHedges := by
  simp only [orderStatusMessageHandler]; split_ifs <;> rfl

lemma errorMessage_mPosition (s : TraderState) (id : Nat) :
    (errorMessageHandler s id).mPosition = s.mPosition := by
  simp only [errorMessageHandler]; split_ifs <;> simp [orderStatus_mPosition]

lemma errorMessage_mHedges (s : TraderState) (id : Nat) :
    (errorMessageHandler s id).mHedges = s.mHedges := by
  simp only [errorMessageHandler]; split_ifs <;> simp [orderStatus_mHedges]

lemma step_inv (gs : IndState × TraderState) (e : Event)
    (h : gs.2.mHedges = 0 ∧ gs.2.mPosition.natAbs ≤ POSITION_LIMIT) :
    (step gs e).2.mHedges = 0 ∧ (step gs e).2.mPosition.natAbs ≤ POSITION_LIMIT := by
  obtain ⟨h0, h1⟩ := h
  cases e with
  | orderBook instr seq ap av bp bv =>
    exact ⟨by simp [step, orderBook_mHedges, h0], by simp [step, orderBook_mPosition, h1]⟩
  | orderFilled id p v =>
    refine ⟨by simp [step, orderFilled_mHedges, h0], ?_⟩
    rcases orderFilled_pos_cases gs.2 id p v with hc | hc
    · simp only [step]; rw [hc]; exact h1
    · simp only [step]; exact hc.1
  | orderStatus id f r fees =>
    exact ⟨by simp [step, orderStatus_mHedges, h0], by simp [step, orderStatus_mPosition, h1]⟩
  | errorMessage id =>
    exact ⟨by simp [step, errorMessage_mHedges, h0], by simp [step, errorMessage_mPosition, h1]⟩
  | hedgeFilled id p v => exact ⟨h0, h1⟩
  | tradeTicks instr seq ap av bp bv => exact ⟨h0, h1⟩

lemma run_inv (evs : List Event) :
    (run evs).2.mHedges = 0 ∧ (run evs).2.mPosition.natAbs ≤ POSITION_LIMIT := by
  induction evs using List.reverseRecOn with
  | nil => exact ⟨rfl, by decide⟩
  | append_singleton evs e ih =>
    have hrw : run (evs ++ [e]) = step (run evs) e := by
      simp [run, List.foldl_append]
    rw [hrw]
    exact step_inv (run evs) e ih

/-- C6 (code bug): the BUY-branch guard at src/autotrader.cc line 277 is
    `leadingSpanBBuffer.size() >= 52`, which tests the vector's constant size,
    not the fill count: after a single sample the window holds one value
    (`leadingSpanBCount = 1 < 52`, not full) yet the guard already evaluates to
    true, so the BUY branch is not gated on window fullness at all. -/
theorem c6_buy_gate_ignores_fill_count :
    buySignalGate ((ichimokuStep initIndState [1200, 0, 0, 0, 0] [50, 0, 0, 0, 0]
      [1000, 0, 0, 0, 0] [50, 0, 0, 0, 0]).1) = true ∧
    ((ichimokuStep initIndState [1200, 0, 0, 0, 0] [50, 0, 0, 0, 0] [1000, 0, 0, 0, 0]
      [50, 0, 0, 0, 0]).1).leadingSpanBCount < leading_span_b_window := by decide

-- ## Lemmas for the cancel/replace claim

lemma tryReplaceAsk_cancel_only (s : TraderState) (p q : Nat)
    (hnz : p ≠ 0) (hne : p ≠ s.mAskPrice) (hid : s.mAskId ≠ 0)
    (hpend : s.PendingCancelAsk = false) :
    tryReplaceAsk s p q
      = ({ s with PendingCancelAsk := true, mAskPrice := p },
          [Action.cancelOrder s.mAskId]) := by
  simp [tryReplaceAsk, hnz, hne, hid, hpend]

lemma tryReplaceAsk_noop_price (s : TraderState) (p q : Nat) (h : p = s.mAskPrice) :
    tryReplaceAsk s p q = (s, []) := by
  simp [tryReplaceAsk, h]

lemma tryReplaceBid_mAskPrice (s : TraderState) (p q : Nat) :
    (tryReplaceBid s p q).1.mAskPrice = s.mAskPrice := by
  simp only [tryReplaceBid]; split_ifs <;> rfl

lemma tryReplaceBid_PendingCancelAsk (s : TraderState) (p q : Nat) :
    (tryReplaceBid s p q).1.PendingCancelAsk = s.PendingCancelAsk := by
  simp only [tryReplaceBid]; split_ifs <;> rfl

lemma tryReplaceBid_no_sell (s : TraderState) (p q : Nat) (i pr vol : Nat) :
    Action.insertOrder i Side.SELL pr vol ∉ (tryReplaceBid s p q).2 := by
  simp only [tryReplaceBid]; split_ifs <;> simp

lemma longLoopBody_noop (np aq cp : Nat) (acc : TraderState × List Action) (e : Nat × Nat)
    (h : acc.1.mAskPrice = np) : longLoopBody np aq cp acc e = acc := by
  simp [longLoopBody, h]

lemma foldLong_noop (np aq cp : Nat) (entries : List (Nat × Nat)) :
    ∀ acc : TraderState × List Action, acc.1.mAskPrice = np →
      entries.foldl (longLoopBody np aq cp) acc = acc := by
  induction entries with
  | nil => intro acc _; rfl
  | cons e t ih =>
    intro acc h
    rw [List.foldl_cons, longLoopBody_noop np aq cp acc e h, ih acc h]

lemma shortLoopBody_mAskPrice (np bq cp : Nat) (acc : TraderState × List Action)
    (e : Nat × Nat) : (shortLoopBody np bq cp acc e).1.mAskPrice = acc.1.mAskPrice := by
  simp only [shortLoopBody]; split_ifs <;> simp [tryReplaceBid_mAskPrice]

lemma shortLoopBody_PendingCancelAsk (np bq cp : Nat) (acc : TraderState × List Action)
    (e : Nat × Nat) :
    (shortLoopBody np bq cp acc e).1.PendingCancelAsk = acc.1.PendingCancelAsk := by
  simp only [shortLoopBody]; split_ifs <;> simp [tryReplaceBid_PendingCancelAsk]

lemma foldShort_mAskPrice (np bq cp : Nat) (entries : List (Nat × Nat)) :
    ∀ acc : TraderState × List Action,
      (entries.foldl (shortLoopBody np bq cp) acc).1.mAskPrice = acc.1.mAskPrice := by
  induction entries with
  | nil => intro acc; rfl
  | cons e t ih =>
    intro acc
    rw [List.foldl_cons, ih (shortLoopBody np bq cp acc e), shortLoopBody_mAskPrice]

lemma foldShort_PendingCancelAsk (np bq cp : Nat) (entries : List (Nat × Nat)) :
    ∀ acc : TraderState × List Action,
      (entries.foldl (shortLoopBody np bq cp) acc).1.PendingCancelAsk
        = acc.1.PendingCancelAsk := by
  induction entries with
  | nil => intro acc; rfl
  | cons e t ih =>
    intro acc
    rw [List.foldl_cons, ih (shortLoopBody np bq cp acc e), shortLoopBody_PendingCancelAsk]

lemma foldShort_no_sell (np bq cp : Nat) (entries : List (Nat × Nat)) :
    ∀ acc : TraderState × List Action,
      (∀ i pr vol, Action.insertOrder i Side.SELL pr vol ∉ acc.2) →
      ∀ i pr vol, Action.insertOrder i Side.SELL pr vol
        ∉ (entries.foldl (shortLoopBody np bq cp) acc).2 := by
  induction entries with
  | nil => intro acc h; exact h
  | cons e t ih =>
    intro acc h
    rw [List.foldl_cons]
    apply ih
    intro i pr vol
    simp only [shortLoopBody]
    split_ifs
    · simp only [List.mem_append, not_or]
      exact ⟨h i pr vol, tryReplaceBid_no_sell _ _ _ i pr vol⟩
    · exact h i pr vol

lemma tryReplaceBid_cancel_only (s : TraderState) (p q : Nat)
    (hnz : p ≠ 0) (hne : p ≠ s.mBidPrice) (hid : s.mBidId ≠ 0)
    (hpend : s.PendingCancelBid = false) :
    tryReplaceBid s p q
      = ({ s with PendingCancelBid := true, mBidPrice := p },
          [Action.cancelOrder s.mBidId]) := by
  simp [tryReplaceBid, hnz, hne, hid, hpend]

lemma tryReplaceBid_noop_price (s : TraderState) (p q : Nat) (h : p = s.mBidPrice) :
    tryReplaceBid s p q = (s, []) := by
  simp [tryReplaceBid, h]

lemma tryReplaceAsk_mBidId (s : TraderState) (p q : Nat) :
    (tryReplaceAsk s p q).1.mBidId = s.mBidId := by
  simp only [tryReplaceAsk]; split_ifs <;> rfl

lemma tryReplaceAsk_mBidPrice (s : TraderState) (p q : Nat) :
    (tryReplaceAsk s p q).1.mBidPrice = s.mBidPrice := by
  simp only [tryReplaceAsk]; split_ifs <;> rfl

lemma tryReplaceAsk_PendingCancelBid (s : TraderState) (p q : Nat) :
    (tryReplaceAsk s p q).1.PendingCancelBid = s.PendingCancelBid := by
  simp only [tryReplaceAsk]; split_ifs <;> rfl

lemma tryReplaceAsk_no_buy (s : TraderState) (p q : Nat) (i pr vol : Nat) :
    Action.insertOrder i Side.BUY pr vol ∉ (tryReplaceAsk s p q).2 := by
  simp only [tryReplaceAsk]; split_ifs <;> simp

lemma longLoopBody_mBidPrice (np aq cp : Nat) (acc : TraderState × List Action)
    (e : Nat × Nat) : (longLoopBody np aq cp acc e).1.mBidPrice = acc.1.mBidPrice := by
  simp only [longLoopBody]; split_ifs <;> simp [tryReplaceAsk_mBidPrice]

lemma longLoopBody_PendingCancelBid (np aq cp : Nat) (acc : TraderState × List Action)
    (e : Nat × Nat) :
    (longLoopBody np aq cp acc e).1.PendingCancelBid = acc.1.PendingCancelBid := by
  simp only [longLoopBody]; split_ifs <;> simp [tryReplaceAsk_PendingCancelBid]

lemma foldLong_mBidPrice (np aq cp : Nat) (entries : List (Nat × Nat)) :
    ∀ acc : TraderState × List Action,
      (entries.foldl (longLoopBody np aq cp) acc).1.mBidPrice = acc.1.mBidPrice := by
  induction entries with
  | nil => intro acc; rfl
  | cons e t ih =>
    intro acc
    rw [List.foldl_cons, ih (longLoopBody np aq cp acc e), longLoopBody_mBidPrice]

lemma foldLong_PendingCancelBid (np aq cp : Nat) (entries : List (Nat × Nat)) :
    ∀ acc : TraderState × List Action,
      (entries.foldl (longLoopBody np aq cp) acc).1.PendingCancelBid
        = acc.1.PendingCancelBid := by
  induction entries with
  | nil => intro acc; rfl
  | cons e t ih =>
    intro acc
    rw [List.foldl_cons, ih (longLoopBody np aq cp acc e), longLoopBody_PendingCancelBid]

lemma foldLong_no_buy (np aq cp : Nat) (entries : List (Nat × Nat)) :
    ∀ acc : TraderState × List Action,
      (∀ i pr vol, Action.insertOrder i Side.BUY pr vol ∉ acc.2) →
      ∀ i pr vol, Action.insertOrder i Side.BUY pr vol
        ∉ (entries.foldl (longLoopBody np aq cp) acc).2 := by
  induction entries with
  | nil => intro acc h; exact h
  | cons e t ih =>
    intro acc h
    rw [List.foldl_cons]
    apply ih
    intro i pr vol
    simp only [longLoopBody]
    split_ifs
    · simp only [List.mem_append, not_or]
      exact ⟨h i pr vol, tryReplaceAsk_no_buy _ _ _ i pr vol⟩
    · exact h i pr vol
    · exact h i pr vol

lemma shortLoopBody_noop (np bq cp : Nat) (acc : TraderState × List Action) (e : Nat × Nat)
    (h : acc.1.mBidPrice = np) : shortLoopBody np bq cp acc e = acc := by
  simp [shortLoopBody, tryReplaceBid_noop_price acc.1 np bq h.symm]

lemma foldShort_noop (np bq cp : Nat) (entries : List (Nat × Nat)) :
    ∀ acc : TraderState × List Action, acc.1.mBidPrice = np →
      entries.foldl (shortLoopBody np bq cp) acc = acc := by
  induction entries with
  | nil => intro acc _; rfl
  | cons e t ih =>
    intro acc h
    rw [List.foldl_cons, shortLoopBody_noop np bq cp acc e h, ih acc h]

lemma orderBookTail_PendingCancelAsk (g : IndState) (st : TraderState)
    (nap nbp aq bq cp : Nat) (ap av bp bv : List Nat) (hprice : st.mAskPrice = nap) :
    (orderBookTail g st nap nbp aq bq cp ap av bp bv).1.2.PendingCancelAsk
      = st.PendingCancelAsk := by
  simp only [orderBookTail, profitTakeLong, profitTakeShort,
    tryReplaceAsk_noop_price st nap aq hprice.symm]
  split_ifs <;>
    simp [foldLong_noop, foldShort_PendingCancelAsk, tryReplaceBid_PendingCancelAsk,
      tryReplaceBid_mAskPrice, hprice]

lemma profit_no_sell (nap nbp aq bq cp : Nat) (x : TraderState) (hx : x.mAskPrice = nap)
    (i pr vol : Nat) :
    Action.insertOrder i Side.SELL pr vol ∉
      (x.longInventory.foldl (longLoopBody nap aq cp) (x, ([] : List Action))).2 ++
        ((((x.longInventory.foldl (longLoopBody nap aq cp)
              (x, ([] : List Action))).1).shortInventory).foldl (shortLoopBody nbp bq cp)
            ((x.longInventory.foldl (longLoopBody nap aq cp) (x, ([] : List Action))).1,
              ([] : List Action))).2 := by
  rw [foldLong_noop nap aq cp _ _ (by simpa using hx)]
  simp only [List.mem_append, not_or]
  exact ⟨by simp, foldShort_no_sell nbp bq cp _ _ (by simp) i pr vol⟩

lemma orderBookTail_no_sell (g : IndState) (st : TraderState)
    (nap nbp aq bq cp : Nat) (ap av bp bv : List Nat) (hprice : st.mAskPrice = nap)
    (i pr vol : Nat) :
    Action.insertOrder i Side.SELL pr vol
      ∉ (orderBookTail g st nap nbp aq bq cp ap av bp bv).2 := by
  have hb : (tryReplaceBid st nbp bq).1.mAskPrice = nap := by
    rw [tryReplaceBid_mAskPrice]; exact hprice
  simp only [orderBookTail, profitTakeLong, profitTakeShort,
    tryReplaceAsk_noop_price st nap aq hprice.symm]
  split_ifs with h1 h2 h3 h4 h5
  · simp only [List.mem_append, not_or]
    refine ⟨tryReplaceBid_no_sell _ _ _ i pr vol, ?_⟩
    have := profit_no_sell nap nbp aq bq cp (tryReplaceBid st nbp bq).1 hb i pr vol
    simpa only [List.mem_append, not_or] using this
  · simp only [List.mem_append, not_or]
    exact ⟨tryReplaceBid_no_sell _ _ _ i pr vol, by simp⟩
  · simp only [List.mem_append, not_or]
    refine ⟨by simp, ?_⟩
    have := profit_no_sell nap nbp aq bq cp st hprice i pr vol
    simpa only [List.mem_append, not_or] using this
  · simp
  · simp only [List.mem_append, not_or]
    refine ⟨by simp, ?_⟩
    have := profit_no_sell nap nbp aq bq cp st hprice i pr vol
    simpa only [List.mem_append, not_or] using this
  · simp

lemma orderBookTail_mAskPrice (g : IndState) (st : TraderState)
    (nap nbp aq bq cp : Nat) (ap av bp bv : List Nat) (hprice : st.mAskPrice = nap) :
    (orderBookTail g st nap nbp aq bq cp ap av bp bv).1.2.mAskPrice = nap := by
  simp only [orderBookTail, profitTakeLong, profitTakeShort,
    tryReplaceAsk_noop_price st nap aq hprice.symm]
  split_ifs <;>
    simp [foldLong_noop, foldShort_mAskPrice, tryReplaceBid_mAskPrice, hprice]

lemma orderBookTail_PendingCancelBid (g : IndState) (st : TraderState)
    (nap nbp aq bq cp : Nat) (ap av bp bv : List Nat) (hprice : st.mBidPrice = nbp) :
    (orderBookTail g st nap nbp aq bq cp ap av bp bv).1.2.PendingCancelBid
      = st.PendingCancelBid := by
  simp only [orderBookTail, profitTakeLong, profitTakeShort,
    tryReplaceBid_noop_price st nbp bq hprice.symm]
  split_ifs <;>
    simp [foldShort_noop, foldLong_mBidPrice, foldLong_PendingCancelBid,
      tryReplaceAsk_mBidPrice, tryReplaceAsk_PendingCancelBid, hprice]

lemma orderBookTail_mBidPrice (g : IndState) (st : TraderState)
    (nap nbp aq bq cp : Nat) (ap av bp bv : List Nat) (hprice : st.mBidPrice = nbp) :
    (orderBookTail g st nap nbp aq bq cp ap av bp bv).1.2.mBidPrice = nbp := by
  simp only [orderBookTail, profitTakeLong, profitTakeShort,
    tryReplaceBid_noop_price st nbp bq hprice.symm]
  split_ifs <;>
    simp [foldShort_noop, foldLong_mBidPrice, tryReplaceAsk_mBidPrice, hprice]

lemma profit_no_buy (nap nbp aq bq cp : Nat) (x : TraderState) (hx : x.mBidPrice = nbp)
    (i pr vol : Nat) :
    Action.insertOrder i Side.BUY pr vol ∉
      (x.longInventory.foldl (longLoopBody nap aq cp) (x, ([] : List Action))).2 ++
        ((((x.longInventory.foldl (longLoopBody nap aq cp)
              (x, ([] : List Action))).1).shortInventory).foldl (shortLoopBody nbp bq cp)
            ((x.longInventory.foldl (longLoopBody nap aq cp) (x, ([] : List Action))).1,
              ([] : List Action))).2 := by
  have h1 : (x.longInventory.foldl (longLoopBody nap aq cp)
      (x, ([] : List Action))).1.mBidPrice = nbp := by
    rw [foldLong_mBidPrice]; exact hx
  rw [foldShort_noop nbp bq cp _ _ (by simpa using h1)]
  simp only [List.mem_append, not_or]
  exact ⟨foldLong_no_buy nap aq cp _ _ (by simp) i pr vol, by simp⟩

lemma orderBookTail_no_buy (g : IndState) (st : TraderState)
    (nap nbp aq bq cp : Nat) (ap av bp bv : List Nat) (hprice : st.mBidPrice = nbp)
    (i pr vol : Nat) :
    Action.insertOrder i Side.BUY pr vol
      ∉ (orderBookTail g st nap nbp aq bq cp ap av bp bv).2 := by
  have ha : (tryReplaceAsk st nap aq).1.mBidPrice = nbp := by
    rw [tryReplaceAsk_mBidPrice]; exact hprice
  simp only [orderBookTail, profitTakeLong, profitTakeShort,
    tryReplaceBid_noop_price st nbp bq hprice.symm]
  split_ifs with h1 h2 h3 h4 h5
  · simp only [List.mem_append, not_or]
    refine ⟨by simp, ?_⟩
    have := profit_no_buy nap nbp aq bq cp st hprice i pr vol
    simpa only [List.mem_append, not_or] using this
  · simp
  · simp only [List.mem_append, not_or]
    refine ⟨tryReplaceAsk_no_buy _ _ _ i pr vol, ?_⟩
    have := profit_no_buy nap nbp aq bq cp (tryReplaceAsk st nap aq).1 ha i pr vol
    simpa only [List.mem_append, not_or] using this
  · simp only [List.mem_append, not_or]
    exact ⟨tryReplaceAsk_no_buy _ _ _ i pr vol, by simp⟩
  · simp only [List.mem_append, not_or]
    refine ⟨by simp, ?_⟩
    have := profit_no_buy nap nbp aq bq cp st hprice i pr vol
    simpa only [List.mem_append, not_or] using this
  · simp

lemma orderBook_ask_cancel_only (g : IndState) (s : TraderState) (seq : Nat)
    (ap av bp bv : List Nat)
    (hid : s.mAskId ≠ 0) (hpend : s.PendingCancelAsk = false)
    (hnz : newAskPriceOf s.mPosition ap av bp bv ≠ 0)
    (hne : newAskPriceOf s.mPosition ap av bp bv ≠ s.mAskPrice)
    (hq : 0 < askQuantityOf s.mPosition) :
    Action.cancelOrder s.mAskId
      ∈ (orderBookMessageHandler g s Instrument.FUTURE seq ap av bp bv).2 ∧
    (orderBookMessageHandler g s Instrument.FUTURE seq ap av bp bv).1.2.PendingCancelAsk
      = true ∧
    (orderBookMessageHandler g s Instrument.FUTURE seq ap av bp bv).1.2.mAskPrice
      = newAskPriceOf s.mPosition ap av bp bv ∧
    ∀ i pr vol, Action.insertOrder i Side.SELL pr vol
      ∉ (orderBookMessageHandler g s Instrument.FUTURE seq ap av bp bv).2 := by
  have hr1 := tryReplaceAsk_cancel_only s (newAskPriceOf s.mPosition ap av bp bv)
    (askQuantityOf s.mPosition) hnz hne hid hpend
  have hmain : orderBookMessageHandler g s Instrument.FUTURE seq ap av bp bv
      = (let r2 := tryReplaceBid
            { s with PendingCancelAsk := true,
                     mAskPrice := newAskPriceOf s.mPosition ap av bp bv }
            (newBidPriceOf s.mPosition ap av bp bv) (bidQuantityOf s.mPosition)
         let t := orderBookTail g r2.1 (newAskPriceOf s.mPosition ap av bp bv)
            (newBidPriceOf s.mPosition ap av bp bv) (askQuantityOf s.mPosition)
            (bidQuantityOf s.mPosition)
            (((bp.getD 0 0 + ap.getD 0 0) % U64) / 2) ap av bp bv
         (t.1, [Action.cancelOrder s.mAskId] ++ r2.2 ++ t.2)) := by
    simp only [orderBookMessageHandler, hr1]
    rfl
  rw [hmain]
  simp only []
  have hask : (tryReplaceBid
      { s with PendingCancelAsk := true,
               mAskPrice := newAskPriceOf s.mPosition ap av bp bv }
      (newBidPriceOf s.mPosition ap av bp bv) (bidQuantityOf s.mPosition)).1.mAskPrice
      = newAskPriceOf s.mPosition ap av bp bv := by
    rw [tryReplaceBid_mAskPrice]
  have hpendb : (tryReplaceBid
      { s with PendingCancelAsk := true,
               mAskPrice := newAskPriceOf s.mPosition ap av bp bv }
      (newBidPriceOf s.mPosition ap av bp bv) (bidQuantityOf s.mPosition)).1.PendingCancelAsk
      = true := by
    rw [tryReplaceBid_PendingCancelAsk]
  refine ⟨by simp, ?_, ?_, ?_⟩
  · rw [orderBookTail_PendingCancelAsk _ _ _ _ _ _ _ _ _ _ _ hask, hpendb]
  · exact orderBookTail_mAskPrice _ _ _ _ _ _ _ _ _ _ _ hask
  · intro i pr vol
    simp only [List.mem_append, not_or]
    exact ⟨⟨by simp, tryReplaceBid_no_sell _ _ _ i pr vol⟩,
      orderBookTail_no_sell _ _ _ _ _ _ _ _ _ _ _ hask i pr vol⟩

lemma orderBook_bid_cancel_only (g : IndState) (s : TraderState) (seq : Nat)
    (ap av bp bv : List Nat)
    (hid : s.mBidId ≠ 0) (hpend : s.PendingCancelBid = false)
    (hnz : newBidPriceOf s.mPosition ap av bp bv ≠ 0)
    (hne : newBidPriceOf s.mPosition ap av bp bv ≠ s.mBidPrice)
    (hq : 0 < bidQuantityOf s.mPosition) :
    Action.cancelOrder s.mBidId
      ∈ (orderBookMessageHandler g s Instrument.FUTURE seq ap av bp bv).2 ∧
    (orderBookMessageHandler g s Instrument.FUTURE seq ap av bp bv).1.2.PendingCancelBid
      = true ∧
    (orderBookMessageHandler g s Instrument.FUTURE seq ap av bp bv).1.2.mBidPrice
      = newBidPriceOf s.mPosition ap av bp bv ∧
    ∀ i pr vol, Action.insertOrder i Side.BUY pr vol
      ∉ (orderBookMessageHandler g s Instrument.FUTURE seq ap av bp bv).2 := by
  have h1p : (tryReplaceAsk s (newAskPriceOf s.mPosition ap av bp bv)
      (askQuantityOf s.mPosition)).1.mBidPrice = s.mBidPrice := tryReplaceAsk_mBidPrice _ _ _
  have h1i : (tryReplaceAsk s (newAskPriceOf s.mPosition ap av bp bv)
      (askQuantityOf s.mPosition)).1.mBidId = s.mBidId := tryReplaceAsk_mBidId _ _ _
  have h1f : (tryReplaceAsk s (newAskPriceOf s.mPosition ap av bp bv)
      (askQuantityOf s.mPosition)).1.PendingCancelBid = false := by
    rw [tryReplaceAsk_PendingCancelBid]; exact hpend
  have hr2 : tryReplaceBid
      (tryReplaceAsk s (newAskPriceOf s.mPosition ap av bp bv)
        (askQuantityOf s.mPosition)).1
      (newBidPriceOf s.mPosition ap av bp bv) (bidQuantityOf s.mPosition)
      = ({ (tryReplaceAsk s (newAskPriceOf s.mPosition ap av bp bv)
              (askQuantityOf s.mPosition)).1 with
            PendingCancelBid := true,
            mBidPrice := newBidPriceOf s.mPosition ap av bp bv },
          [Action.cancelOrder
            (tryReplaceAsk s (newAskPriceOf s.mPosition ap av bp bv)
              (askQuantityOf s.mPosition)).1.mBidId]) :=
    tryReplaceBid_cancel_only _ _ _ hnz (by rw [h1p]; exact hne) (by rw [h1i]; exact hid) h1f
  have hmain : orderBookMessageHandler g s Instrument.FUTURE seq ap av bp bv
      = (let r1 := tryReplaceAsk s (newAskPriceOf s.mPosition ap av bp bv)
            (askQuantityOf s.mPosition)
         let t := orderBookTail g
            { r1.1 with PendingCancelBid := true,
                        mBidPrice := newBidPriceOf s.mPosition ap av bp bv }
            (newAskPriceOf s.mPosition ap av bp bv)
            (newBidPriceOf s.mPosition ap av bp bv) (askQuantityOf s.mPosition)
            (bidQuantityOf s.mPosition)
            (((bp.getD 0 0 + ap.getD 0 0) % U64) / 2) ap av bp bv
         (t.1, r1.2 ++ [Action.cancelOrder r1.1.mBidId] ++ t.2)) := by
    simp only [orderBookMessageHandler, hr2]
    rfl
  rw [hmain]
  simp only []
  refine ⟨?_, ?_, ?_, ?_⟩
  · rw [h1i]; simp
  · rw [orderBookTail_PendingCancelBid _ _ _ _ _ _ _ _ _ _ _ rfl]
  · exact orderBookTail_mBidPrice _ _ _ _ _ _ _ _ _ _ _ rfl
  · intro i pr vol
    simp only [List.mem_append, not_or]
    exact ⟨⟨tryReplaceAsk_no_buy _ _ _ i pr vol, by simp⟩,
      orderBookTail_no_buy _ _ _ _ _ _ _ _ _ _ _ rfl i pr vol⟩

/-- C5 (amended, corrected): on an order-book update for the quoted instrument
    where a quote side (ask or bid) holds an active order (nonzero tracked id),
    no cancel is pending for that side, the newly computed target price for that
    side is nonzero and differs from the currently quoted price, and the
    computed quote size is positive, the manager issues a cancel for the
    outstanding id, sets that side's pending-cancel flag and records the new
    target price as the quoted price — but it sends NO fresh insert on that side
    anywhere in the same update, because the source sets the pending-cancel flag
    before testing it (src/autotrader.cc lines 245-256 and 261-272): the claimed
    pipelined cancel+replace never occurs. -/
theorem c5_cancel_without_replace (g : IndState) (s : TraderState) (seq : Nat)
    (ap av bp bv : List Nat) :
    (s.mAskId ≠ 0 → s.PendingCancelAsk = false →
      newAskPriceOf s.mPosition ap av bp bv ≠ 0 →
      newAskPriceOf s.mPosition ap av bp bv ≠ s.mAskPrice →
      0 < askQuantityOf s.mPosition →
      Action.cancelOrder s.mAskId
          ∈ (orderBookMessageHandler g s Instrument.FUTURE seq ap av bp bv).2 ∧
        (orderBookMessageHandler g s Instrument.FUTURE seq ap av bp bv).1.2.PendingCancelAsk
          = true ∧
        (orderBookMessageHandler g s Instrument.FUTURE seq ap av bp bv).1.2.mAskPrice
          = newAskPriceOf s.mPosition ap av bp bv ∧
        ∀ i pr vol, Action.insertOrder i Side.SELL pr vol
          ∉ (orderBookMessageHandler g s Instrument.FUTURE seq ap av bp bv).2) ∧
    (s.mBidId ≠ 0 → s.PendingCancelBid = false →
      newBidPriceOf s.mPosition ap av bp bv ≠ 0 →
      newBidPriceOf s.mPosition ap av bp bv ≠ s.mBidPrice →
      0 < bidQuantityOf s.mPosition →
      Action.cancelOrder s.mBidId
          ∈ (orderBookMessageHandler g s Instrument.FUTURE seq ap av bp bv).2 ∧
        (orderBookMessageHandler g s Instrument.FUTURE seq ap av bp bv).1.2.PendingCancelBid
          = true ∧
        (orderBookMessageHandler g s Instrument.FUTURE seq ap av bp bv).1.2.mBidPrice
          = newBidPriceOf s.mPosition ap av bp bv ∧
        ∀ i pr vol, Action.insertOrder i Side.BUY pr vol
          ∉ (orderBookMessageHandler g s Instrument.FUTURE seq ap av bp bv).2) :=
  ⟨fun h1 h2 h3 h4 h5 => orderBook_ask_cancel_only g s seq ap av bp bv h1 h2 h3 h4 h5,
   fun h1 h2 h3 h4 h5 => orderBook_bid_cancel_only g s seq ap av bp bv h1 h2 h3 h4 h5⟩

lemma newAskPriceOf_c5 :
    newAskPriceOf c5State.mPosition [1200, 0, 0, 0, 0] [50, 0, 0, 0, 0] [0, 0, 0, 0, 0]
      [0, 0, 0, 0, 0] = 1200 := by
  norm_num [newAskPriceOf, weightedAverageSpread, qToULong, priceAdjustmentOf, U64,
    show Int.toNat 1200 = 1200 from rfl, TICK_SIZE_IN_CENTS, c5State, initTraderState]

lemma newBidPriceOf_c5 :
    newBidPriceOf c5State.mPosition [1200, 0, 0, 0, 0] [50, 0, 0, 0, 0] [0, 0, 0, 0, 0]
      [0, 0, 0, 0, 0] = 0 := by
  norm_num [newBidPriceOf, weightedAverageSpread, qToULong, priceAdjustmentOf, U64,
    TICK_SIZE_IN_CENTS, c5State, initTraderState]

/-- C5 counterexample: from `c5State` (active ask order 5 at recorded price 0,
    no cancel pending, position 0 so the quote size is 100 > 0) an order-book
    update with best ask 1200 computes the new ask price 1200 ≠ 0 and ≠ the
    quoted price, yet the update's only outgoing message is the cancel of order
    5 — no fresh insert is sent in the same update, refuting the claimed
    pipelined cancel+replace. -/
theorem c5_counterexample :
    (orderBookMessageHandler initIndState c5State Instrument.FUTURE 1
      [1200, 0, 0, 0, 0] [50, 0, 0, 0, 0] [0, 0, 0, 0, 0] [0, 0, 0, 0, 0]).2
      = [Action.cancelOrder 5] := by
  simp only [orderBookMessageHandler, newAskPriceOf_c5, newBidPriceOf_c5]
  decide

lemma newAskPriceOf_c5both :
    newAskPriceOf c5BothState.mPosition [1200, 0, 0, 0, 0] [50, 0, 0, 0, 0]
      [1000, 0, 0, 0, 0] [50, 0, 0, 0, 0] = 1300 := by
  norm_num [newAskPriceOf, weightedAverageSpread, qToULong, priceAdjustmentOf, U64,
    show Int.toNat 200 = 200 from rfl, show Int.toNat 1300 = 1300 from rfl,
    TICK_SIZE_IN_CENTS, c5BothState, initTraderState]

lemma newBidPriceOf_c5both :
    newBidPriceOf c5BothState.mPosition [1200, 0, 0, 0, 0] [50, 0, 0, 0, 0]
      [1000, 0, 0, 0, 0] [50, 0, 0, 0, 0] = 900 := by
  norm_num [newBidPriceOf, weightedAverageSpread, qToULong, priceAdjustmentOf, U64,
    show Int.toNat 200 = 200 from rfl, show Int.toNat 900 = 900 from rfl,
    TICK_SIZE_IN_CENTS, c5BothState, initTraderState]

/-- Witness for `c5_cancel_without_replace` at `c5BothState` (active ask id 5,
    active bid id 6) and the concrete book (1000/1200, volumes 50): both sides
    satisfy the hypotheses, and both implications are exercised. -/
theorem c5_witness :
    (c5BothState.mAskId ≠ 0 ∧ c5BothState.PendingCancelAsk = false ∧
      newAskPriceOf c5BothState.mPosition [1200, 0, 0, 0, 0] [50, 0, 0, 0, 0]
        [1000, 0, 0, 0, 0] [50, 0, 0, 0, 0] ≠ 0 ∧
      newAskPriceOf c5BothState.mPosition [1200, 0, 0, 0, 0] [50, 0, 0, 0, 0]
        [1000, 0, 0, 0, 0] [50, 0, 0, 0, 0] ≠ c5BothState.mAskPrice ∧
      0 < askQuantityOf c5BothState.mPosition ∧
      c5BothState.mBidId ≠ 0 ∧ c5BothState.PendingCancelBid = false ∧
      newBidPriceOf c5BothState.mPosition [1200, 0, 0, 0, 0] [50, 0, 0, 0, 0]
        [1000, 0, 0, 0, 0] [50, 0, 0, 0, 0] ≠ 0 ∧
      newBidPriceOf c5BothState.mPosition [1200, 0, 0, 0, 0] [50, 0, 0, 0, 0]
        [1000, 0, 0, 0, 0] [50, 0, 0, 0, 0] ≠ c5BothState.mBidPrice ∧
      0 < bidQuantityOf c5BothState.mPosition) ∧
    ((Action.cancelOrder c5BothState.mAskId
        ∈ (orderBookMessageHandler initIndState c5BothState Instrument.FUTURE 1
          [1200, 0, 0, 0, 0] [50, 0, 0, 0, 0] [1000, 0, 0, 0, 0] [50, 0, 0, 0, 0]).2 ∧
      (orderBookMessageHandler initIndState c5BothState Instrument.FUTURE 1
          [1200, 0, 0, 0, 0] [50, 0, 0, 0, 0] [1000, 0, 0, 0, 0]
          [50, 0, 0, 0, 0]).1.2.PendingCancelAsk = true ∧
      (orderBookMessageHandler initIndState c5BothState Instrument.FUTURE 1
          [1200, 0, 0, 0, 0] [50, 0, 0, 0, 0] [1000, 0, 0, 0, 0]
          [50, 0, 0, 0, 0]).1.2.mAskPrice
        = newAskPriceOf c5BothState.mPosition [1200, 0, 0, 0, 0] [50, 0, 0, 0, 0]
          [1000, 0, 0, 0, 0] [50, 0, 0, 0, 0] ∧
      ∀ i pr vol, Action.insertOrder i Side.SELL pr vol
        ∉ (orderBookMessageHandler initIndState c5BothState Instrument.FUTURE 1
          [1200, 0, 0, 0, 0] [50, 0, 0, 0, 0] [1000, 0, 0, 0, 0] [50, 0, 0, 0, 0]).2) ∧
    (Action.cancelOrder c5BothState.mBidId
        ∈ (orderBookMessageHandler initIndState c5BothState Instrument.FUTURE 1
          [1200, 0, 0, 0, 0] [50, 0, 0, 0, 0] [1000, 0, 0, 0, 0] [50, 0, 0, 0, 0]).2 ∧
      (orderBookMessageHandler initIndState c5BothState Instrument.FUTURE 1
          [1200, 0, 0, 0, 0] [50, 0, 0, 0, 0] [1000, 0, 0, 0, 0]
          [50, 0, 0, 0, 0]).1.2.PendingCancelBid = true ∧
      (orderBookMessageHandler initIndState c5BothState Instrument.FUTURE 1
          [1200, 0, 0, 0, 0] [50, 0, 0, 0, 0] [1000, 0, 0, 0, 0]
          [50, 0, 0, 0, 0]).1.2.mBidPrice
        = newBidPriceOf c5BothState.mPosition [1200, 0, 0, 0, 0] [50, 0, 0, 0, 0]
          [1000, 0, 0, 0, 0] [50, 0, 0, 0, 0] ∧
      ∀ i pr vol, Action.insertOrder i Side.BUY pr vol
        ∉ (orderBookMessageHandler initIndState c5BothState Instrument.FUTURE 1
          [1200, 0, 0, 0, 0] [50, 0, 0, 0, 0] [1000, 0, 0, 0, 0] [50, 0, 0, 0, 0]).2)) :=
  ⟨⟨by decide, by decide, by rw [newAskPriceOf_c5both]; decide,
      by rw [newAskPriceOf_c5both]; decide, by decide, by decide, by decide,
      by rw [newBidPriceOf_c5both]; decide, by rw [newBidPriceOf_c5both]; decide, by decide⟩,
    (c5_cancel_without_replace initIndState c5BothState 1 [1200, 0, 0, 0, 0] [50, 0, 0, 0, 0]
        [1000, 0, 0, 0, 0] [50, 0, 0, 0, 0]).1 (by decide) (by decide)
      (by rw [newAskPriceOf_c5both]; decide) (by rw [newAskPriceOf_c5both]; decide)
      (by decide),
    (c5_cancel_without_replace initIndState c5BothState 1 [1200, 0, 0, 0, 0] [50, 0, 0, 0, 0]
        [1000, 0, 0, 0, 0] [50, 0, 0, 0, 0]).2 (by decide) (by decide)
      (by rw [newBidPriceOf_c5both]; decide) (by rw [newBidPriceOf_c5both]; decide)
      (by decide)⟩

/-- C1 (confirmed): from the initial state, after any sequence of events the
    tracked position satisfies `|mPosition| ≤ POSITION_LIMIT`; moreover the fill
    handler changes the position only to a value that passes both the plain and
    the hedge-adjusted exposure checks (`±` according to the fill side). -/
theorem c1_position_limit_invariant (evs : List Event) (s : TraderState)
    (id price volume : Nat) :
    (run evs).2.mPosition.natAbs ≤ POSITION_LIMIT ∧
    ((orderFilledMessageHandler s id price volume).1.mPosition = s.mPosition ∨
      ((orderFilledMessageHandler s id price volume).1.mPosition.natAbs ≤ POSITION_LIMIT ∧
        (((orderFilledMessageHandler s id price volume).1.mPosition + s.mHedges).natAbs
            ≤ POSITION_LIMIT ∨
          ((orderFilledMessageHandler s id price volume).1.mPosition - s.mHedges).natAbs
            ≤ POSITION_LIMIT))) :=
  ⟨(run_inv evs).2, orderFilled_pos_cases s id price volume⟩

lemma orderFilled_eq_plain (s : TraderState) (id p v : Nat) (h : s.mHedges = 0) :
    orderFilledMessageHandler s id p v = orderFilledPlainCheck s id p v := by
  simp only [orderFilledMessageHandler, orderFilledPlainCheck, h, add_zero, sub_zero,
    and_self]

/-- C10 (confirmed): `mHedges` is initialised to 0 and no handler writes it, so
    it is 0 in every reachable state, and there the fill handler's hedge-adjusted
    guard `|newPosition ± mHedges| ≤ limit ∧ |newPosition| ≤ limit` coincides
    with the plain guard `|newPosition| ≤ limit` (the whole handler equals its
    plain-check variant). -/
theorem c10_hedges_always_zero (evs : List Event) (id price volume : Nat) :
    (run evs).2.mHedges = 0 ∧
    orderFilledMessageHandler (run evs).2 id price volume
      = orderFilledPlainCheck (run evs).2 id price volume :=
  ⟨(run_inv evs).1, orderFilled_eq_plain (run evs).2 id price volume (run_inv evs).1⟩

lemma tdiv_lot_eq_zero (p : Int) (h : p.natAbs ≤ 100) : p.tdiv (LOT_SIZE : Int) = 0 := by
  cases p with
  | ofNat n =>
    have hn : n ≤ 100 := by simpa using h
    show (Int.ofNat n).tdiv (Int.ofNat 200) = 0
    simp only [Int.tdiv]
    norm_num [Nat.div_eq_of_lt (by omega : n < 200)]
  | negSucc n =>
    have hn : n + 1 ≤ 100 := by simpa [Int.natAbs] using h
    show (Int.negSucc n).tdiv (Int.ofNat 200) = 0
    simp only [Int.tdiv]
    norm_num [Nat.div_eq_of_lt (by omega : n + 1 < 200)]

lemma priceAdjustment_zero (p : Int) (h : p.natAbs ≤ 100) : priceAdjustmentOf p = 0 := by
  unfold priceAdjustmentOf
  rw [tdiv_lot_eq_zero p h]
  simp

/-- C9 (confirmed): in every reachable state `|mPosition| ≤ 100 < LOT_SIZE`, so
    the truncating division `mPosition / LOT_SIZE` is 0 and `priceAdjustment`
    is 0 on every order-book update; consequently the quoted ask and bid prices
    are the same as they would be with a flat position — never skewed by
    inventory. -/
theorem c9_price_adjustment_always_zero (evs : List Event)
    (askPrices askVolumes bidPrices bidVolumes : List Nat) :
    priceAdjustmentOf (run evs).2.mPosition = 0 ∧
    newAskPriceOf (run evs).2.mPosition askPrices askVolumes bidPrices bidVolumes
      = newAskPriceOf 0 askPrices askVolumes bidPrices bidVolumes ∧
    newBidPriceOf (run evs).2.mPosition askPrices askVolumes bidPrices bidVolumes
      = newBidPriceOf 0 askPrices askVolumes bidPrices bidVolumes := by
  have h1 : priceAdjustmentOf (run evs).2.mPosition = 0 :=
    priceAdjustment_zero _ (run_inv evs).2
  have h0 : priceAdjustmentOf 0 = 0 := priceAdjustment_zero 0 (by simp)
  refine ⟨h1, ?_, ?_⟩
  · unfold newAskPriceOf; rw [h1, h0]
  · unfold newBidPriceOf; rw [h1, h0]

/-- C7 (corrected): processing a status update never changes the position, and
    a zero-remaining-volume (terminal) status update also leaves both inventory
    maps unchanged — so repeated terminal updates are idempotent on position and
    inventory; but a later nonzero-remaining update for the same id still
    mutates the inventory maps (see `c7_counterexample`). -/
theorem c7_terminal_status_effects (s : TraderState) (id fill : Nat) (fees : Int)
    (r : Nat) :
    (orderStatusMessageHandler s id fill 0 fees).mPosition = s.mPosition ∧
    (orderStatusMessageHandler s id fill 0 fees).longInventory = s.longInventory ∧
    (orderStatusMessageHandler s id fill 0 fees).shortInventory = s.shortInventory ∧
    (orderStatusMessageHandler s id fill r fees).mPosition = s.mPosition := by
  refine ⟨?_, ?_, ?_, orderStatus_mPosition s id fill r fees⟩ <;>
    (simp only [orderStatusMessageHandler]; split_ifs <;> rfl)

/-- C7 counterexample: after order 5 reaches zero remaining volume (terminal
    status processed), a later status update for the same id with remaining
    volume 10 and fees 7 changes `longInventory` (operator[] default-inserts and
    adds the fees) — the claim says such updates leave the inventory maps
    unchanged. -/
theorem c7_counterexample :
    (orderStatusMessageHandler (orderStatusMessageHandler c7State 5 0 0 0) 5 0 10 7).longInventory
      ≠ (orderStatusMessageHandler c7State 5 0 0 0).longInventory := by decide

/-- C8 (corrected): a status update for an id unknown to the manager (not the
    tracked ask or bid id, in neither active-order set, no inventory or lot-size
    entry) with zero remaining volume leaves the whole state unchanged; but an
    unknown-id update with nonzero remaining volume default-inserts inventory
    and lot-size entries (see `c8_counterexample`) — it never crashes. -/
theorem c8_unknown_terminal_ignored (s : TraderState) (id fillVolume : Nat) (fees : Int)
    (h1 : id ≠ s.mAskId) (h2 : id ≠ s.mBidId) (h3 : id ∉ s.mAsks) (h4 : id ∉ s.mBids)
    (h5 : mapFind s.longInventory id = none) (h6 : mapFind s.shortInventory id = none)
    (h7 : mapFind s.lotSize id = none) :
    orderStatusMessageHandler s id fillVolume 0 fees = s := by
  simp [orderStatusMessageHandler, h1, h2, h3, h4]

/-- Witness for `c8_unknown_terminal_ignored`: id 7 is unknown to the initial
    state, and the terminal status update for it is a no-op. -/
theorem c8_witness :
    ((7 : Nat) ≠ initTraderState.mAskId ∧ (7 : Nat) ≠ initTraderState.mBidId ∧
      (7 : Nat) ∉ initTraderState.mAsks ∧ (7 : Nat) ∉ initTraderState.mBids ∧
      mapFind initTraderState.longInventory 7 = none ∧
      mapFind initTraderState.shortInventory 7 = none ∧
      mapFind initTraderState.lotSize 7 = none) ∧
    orderStatusMessageHandler initTraderState 7 0 0 3 = initTraderState :=
  ⟨⟨by decide, by decide, by decide, by decide, by decide, by decide, by decide⟩,
    c8_unknown_terminal_ignored initTraderState 7 0 3 (by decide) (by decide) (by decide)
      (by decide) (by decide) (by decide) (by decide)⟩

/-- C8 counterexample: a status update with unknown id 7 and remaining volume 5
    (fees 3) mutates the state — `longInventory` gains the entry `(7, 3)` — so
    "leaves the entire manager state unchanged" is false for nonzero remaining
    volume. -/
theorem c8_counterexample :
    orderStatusMessageHandler initTraderState 7 0 5 3 ≠ initTraderState := by decide

end RTG
